import Mathlib

/-!
# Verification of the Human-In-the-Loop MCP server core

Shallow embedding of the dispatch/serialization core of
`src/human_loop_server.py` and `src/gui_executor.py`:

* the Session Serializer (pickle round-trip over the envelope shapes that
  actually cross the subprocess boundary),
* the dialog result logic (`ok_clicked` / `cancel_clicked` handlers),
* the transport (`run_gui_subprocess`, `process.communicate`),
* the tool handlers (`get_user_input`, `get_user_choice`,
  `get_multiline_input`, `show_confirmation_dialog`, `show_info_message`),
* the scheduling model of `run_in_executor(None, ...)` (the asyncio default
  `ThreadPoolExecutor`).

Machine integers appear only as the IEEE-754 bit pattern of a Python float,
carried as a `Nat` below `2 ^ 64`; everything else is exact.
-/

namespace HLoop

/-! ## Session Serializer (pickle model)

The wire traffic of `run_gui_subprocess` (human_loop_server.py:586-617) and
the executor `main` (gui_executor.py:926-984) consists of exactly two shapes:

* request: a dict with keys `dialog_type` (str) and `params`
  (a dict from str to str / bool / list-of-str), pickled onto stdin;
* result: `None`, a bool, an int, a float, a str, a list of str, or the
  structured error dict with single key `error`, pickled onto stdout.

Floats are carried as their IEEE-754 binary64 bit pattern (a `Nat` below
`2 ^ 64`); pickle stores exactly these 8 bytes, so the bit pattern is the
faithful value-level representation.
-/

/-- A value that can appear in the `params` dict of a request envelope. -/
inductive ParamVal where
  | str (s : String)
  | bool (b : Bool)
  | strList (xs : List String)
deriving DecidableEq

/-- A request envelope: `dialog_type` plus the `params` dict
(human_loop_server.py:590-593). -/
structure Request where
  dialog_type : String
  params : List (String × ParamVal)
deriving DecidableEq

/-- A result envelope as written by the executor subprocess
(gui_executor.py:982-983): the dialog result value, or the structured
error dict built at gui_executor.py:979-980. -/
inductive ResultVal where
  | none
  | bool (b : Bool)
  | int (i : Int)
  | float (bits : Nat)
  | str (s : String)
  | strList (xs : List String)
  | errDict (msg : String)
deriving DecidableEq

/-- Either side of the wire contract. -/
inductive Envelope where
  | req (r : Request)
  | res (v : ResultVal)
deriving DecidableEq

/-- One pickle opcode with its immediate argument: the serialized stream is
a flat sequence of these. -/
inductive Tok where
  | tNone
  | tBool (b : Bool)
  | tInt (i : Int)
  | tFloat (bits : Nat)
  | tStr (s : String)
  | tListLen (n : Nat)
  | tDictLen (n : Nat)
  | tKey (s : String)
deriving DecidableEq

/-- Encode one `params` value. -/
def encodeParam : ParamVal → List Tok
  | .str s => [.tStr s]
  | .bool b => [.tBool b]
  | .strList xs => .tListLen xs.length :: xs.map .tStr

/-- Encode the `params` dict entry by entry. -/
def encodeParams : List (String × ParamVal) → List Tok
  | [] => []
  | (k, v) :: rest => .tKey k :: (encodeParam v ++ encodeParams rest)

/-- Encode a request envelope, mirroring the two-key dict built at
human_loop_server.py:590-593. -/
def encodeRequest (r : Request) : List Tok :=
  .tDictLen 2 :: .tKey "dialog_type" :: .tStr r.dialog_type ::
    .tKey "params" :: .tDictLen r.params.length :: encodeParams r.params

/-- Encode a result envelope. -/
def encodeResult : ResultVal → List Tok
  | .none => [.tNone]
  | .bool b => [.tBool b]
  | .int i => [.tInt i]
  | .float bits => [.tFloat bits]
  | .str s => [.tStr s]
  | .strList xs => .tListLen xs.length :: xs.map .tStr
  | .errDict msg => [.tDictLen 1, .tKey "error", .tStr msg]

/-- Decode `n` strings from the head of the stream. -/
def decStrs : Nat → List Tok → Option (List String × List Tok)
  | 0, ts => some ([], ts)
  | n + 1, .tStr s :: ts =>
      match decStrs n ts with
      | some (xs, rest) => some (s :: xs, rest)
      | Option.none => Option.none
  | _ + 1, _ => Option.none

/-- Decode one `params` value from the head of the stream. -/
def decParamVal : List Tok → Option (ParamVal × List Tok)
  | .tStr s :: ts => some (.str s, ts)
  | .tBool b :: ts => some (.bool b, ts)
  | .tListLen n :: ts =>
      match decStrs n ts with
      | some (xs, rest) => some (.strList xs, rest)
      | Option.none => Option.none
  | _ => Option.none

/-- Decode `n` dict entries of the `params` dict. -/
def decParams : Nat → List Tok → Option (List (String × ParamVal) × List Tok)
  | 0, ts => some ([], ts)
  | n + 1, .tKey k :: ts =>
      match decParamVal ts with
      | some (v, rest) =>
          match decParams n rest with
          | some (vs, rest2) => some ((k, v) :: vs, rest2)
          | Option.none => Option.none
      | Option.none => Option.none
  | _ + 1, _ => Option.none

/-- Decode a request envelope, rejecting streams that do not carry the
two-key request dict. -/
def decRequestAux : List Tok → Option (Request × List Tok)
  | .tDictLen 2 :: .tKey "dialog_type" :: .tStr dt ::
      .tKey "params" :: .tDictLen n :: ts =>
      match decParams n ts with
      | some (ps, rest) => some (⟨dt, ps⟩, rest)
      | Option.none => Option.none
  | _ => Option.none

/-- Decode a complete request stream (no trailing tokens allowed). -/
def decRequest (ts : List Tok) : Option Request :=
  match decRequestAux ts with
  | some (r, []) => some r
  | _ => Option.none

/-- Decode a result envelope from the head of the stream. -/
def decResultAux : List Tok → Option (ResultVal × List Tok)
  | .tNone :: ts => some (.none, ts)
  | .tBool b :: ts => some (.bool b, ts)
  | .tInt i :: ts => some (.int i, ts)
  | .tFloat bits :: ts => some (.float bits, ts)
  | .tStr s :: ts => some (.str s, ts)
  | .tListLen n :: ts =>
      match decStrs n ts with
      | some (xs, rest) => some (.strList xs, rest)
      | Option.none => Option.none
  | .tDictLen 1 :: .tKey "error" :: .tStr msg :: ts => some (.errDict msg, ts)
  | _ => Option.none

/-- Decode a complete result stream (no trailing tokens allowed). -/
def decResult (ts : List Tok) : Option ResultVal :=
  match decResultAux ts with
  | some (v, []) => some v
  | _ => Option.none

/-- Serialize and deserialize an envelope over the channel it travels on:
requests over stdin, results over stdout. -/
def envRoundtrip : Envelope → Option Envelope
  | .req r => (decRequest (encodeRequest r)).map .req
  | .res v => (decResult (encodeResult v)).map .res

/-- The IEEE-754 binary64 bit pattern denotes a NaN: exponent field all
ones and a nonzero fraction field. -/
def isNanBits (bits : Nat) : Bool :=
  decide ((bits / 4503599627370496) % 2048 = 2047) &&
    decide (bits % 4503599627370496 ≠ 0)

/-- The bit pattern denotes positive or negative zero (sign bit ignored). -/
def isZeroBits (bits : Nat) : Bool :=
  decide (bits % 9223372036854775808 = 0)

/-- Python `==` on two floats given by their bit patterns: NaN compares
unequal to everything including itself, and the two zeros compare equal. -/
def pyFloatEq (a b : Nat) : Bool :=
  !isNanBits a && !isNanBits b &&
    (decide (a = b) || (isZeroBits a && isZeroBits b))

/-- Python `==` on result envelopes: structural except on floats. -/
def pyEqResult : ResultVal → ResultVal → Bool
  | .float a, .float b => pyFloatEq a b
  | a, b => decide (a = b)

/-- Python `==` on envelopes; request envelopes contain no floats, so there
`==` is structural. -/
def pyEqEnv : Envelope → Envelope → Bool
  | .res a, .res b => pyEqResult a b
  | a, b => decide (a = b)

/-- The envelope contains no NaN float. -/
def noNanEnv : Envelope → Bool
  | .res (.float bits) => !isNanBits bits
  | _ => true

theorem decStrs_encode (xs : List String) (rest : List Tok) :
    decStrs xs.length (xs.map Tok.tStr ++ rest) = some (xs, rest) := by
  induction xs with
  | nil => rfl
  | cons x xs ih => simp [decStrs, ih]

theorem decParamVal_encode (p : ParamVal) (rest : List Tok) :
    decParamVal (encodeParam p ++ rest) = some (p, rest) := by
  cases p with
  | str s => rfl
  | bool b => rfl
  | strList xs => simp [encodeParam, decParamVal, decStrs_encode]

theorem decParams_encode (ps : List (String × ParamVal)) (rest : List Tok) :
    decParams ps.length (encodeParams ps ++ rest) = some (ps, rest) := by
  induction ps generalizing rest with
  | nil => rfl
  | cons kv ps ih =>
      obtain ⟨k, v⟩ := kv
      simp [encodeParams, decParams, decParamVal_encode, ih]

theorem decRequest_encode (r : Request) :
    decRequest (encodeRequest r) = some r := by
  obtain ⟨dt, ps⟩ := r
  have h := decParams_encode ps []
  simp only [List.append_nil] at h
  simp [encodeRequest, decRequest, decRequestAux, h]

theorem decResult_encode (v : ResultVal) :
    decResult (encodeResult v) = some v := by
  cases v with
  | strList xs =>
      have h := decStrs_encode xs []
      simp only [List.append_nil] at h
      simp [encodeResult, decResult, decResultAux, h]
  | _ => rfl

/-! ## Dialog result logic

Models of the dialog button handlers. The handlers are textually identical
in the embedded `GUI_EXECUTOR_SCRIPT` (human_loop_server.py:197-215,
263-285, 428-437) and in gui_executor.py (434-454, 549-557, 780-791);
run_gui_subprocess executes the embedded script, and both agree, so one
model covers both.
-/

/-- A Python value as passed between the subprocess and the tool layer once
unpickled. A successfully parsed float is carried as its accepted literal:
its numeric value never influences any branch of the core, only its
parse success/failure does. -/
inductive DVal where
  | none
  | bool (b : Bool)
  | int (i : Int)
  | floatLit (s : String)
  | str (s : String)
  | strList (xs : List String)
  | errDict (msg : String)
deriving DecidableEq

/-- Numeric value of a decimal digit character. -/
def digitVal (c : Char) : Nat := c.toNat - 48

/-- The ASCII fragment of the whitespace stripped by Python
`int()`/`float()` around a numeric literal: space, tab, newline, vertical
tab, form feed, carriage return and the separators 28-31. (Python also
strips non-ASCII Unicode whitespace; the parse models below are therefore
used only under an `asciiOnly` guard.) -/
def isSpaceChar (c : Char) : Bool :=
  c == ' ' || c == '\t' || c == '\n' || c == '\r' ||
    c == Char.ofNat 11 || c == Char.ofNat 12 ||
    c == Char.ofNat 28 || c == Char.ofNat 29 ||
    c == Char.ofNat 30 || c == Char.ofNat 31

/-- Every character of the string is ASCII. Python's `int()`/`float()`
additionally accept non-ASCII Unicode decimal digits and whitespace, which
the parse models below do not cover; every claim that relies on a parse
failure is therefore restricted to ASCII entries, on which the models
agree with Python. -/
def asciiOnly (s : String) : Bool :=
  s.toList.all (fun c => decide (c.toNat < 128))

/-- Strip leading and trailing whitespace from a character list. -/
def trimChars (l : List Char) : List Char :=
  ((l.dropWhile isSpaceChar).reverse.dropWhile isSpaceChar).reverse

/-- Continue a digit run: further digits, with single underscores allowed
between digits (PEP 515, accepted by Python `int()` and `float()`). -/
def digitsAux : Nat → List Char → Option Nat
  | acc, [] => some acc
  | acc, '_' :: c :: rest =>
      if c.isDigit then digitsAux (10 * acc + digitVal c) rest else Option.none
  | acc, c :: rest =>
      if c.isDigit then digitsAux (10 * acc + digitVal c) rest else Option.none

/-- A nonempty ASCII digit run with optional single underscores between
digits, as accepted by Python `int()` after sign stripping. -/
def digitsVal : List Char → Option Nat
  | [] => Option.none
  | c :: rest =>
      if c.isDigit then digitsAux (digitVal c) rest else Option.none

/-- Python `int(s)` on an ASCII string: strip surrounding whitespace,
optional sign, then a digit run. Returns the parsed integer, or failure
(`ValueError`). On non-ASCII strings Python can also succeed via Unicode
decimal digits; see `asciiOnly`. -/
def pyParseInt (s : String) : Option Int :=
  match trimChars s.toList with
  | '+' :: rest => (digitsVal rest).map (fun n => (n : Int))
  | '-' :: rest => (digitsVal rest).map (fun n => -(n : Int))
  | l => (digitsVal l).map (fun n => (n : Int))

/-- Consume a maximal digit run (digits with single underscores between
digits) from the head of the character list, returning the rest. -/
def munchDigits : List Char → List Char
  | '_' :: c :: rest =>
      if c.isDigit then munchDigits rest else '_' :: c :: rest
  | c :: rest => if c.isDigit then munchDigits rest else c :: rest
  | [] => []

/-- The list starts with a decimal digit. -/
def startsWithDigit : List Char → Bool
  | c :: _ => c.isDigit
  | [] => false

/-- An optionally signed nonempty digit run covering the whole list:
the exponent part of a float literal. -/
def signedDigits (l : List Char) : Bool :=
  let l' := match l with
    | '+' :: r => r
    | '-' :: r => r
    | r => r
  startsWithDigit l' && decide (munchDigits l' = [])

/-- The optional exponent of a float literal: empty, or `e` followed by an
optionally signed digit run. The input is already lowercased. -/
def expPart : List Char → Bool
  | [] => true
  | 'e' :: rest => signedDigits rest
  | _ => false

/-- The mantissa-and-exponent body of a Python float literal after sign
stripping and lowercasing: `digits [. [digits]] [exp]` or `. digits [exp]`. -/
def mantissaExp (l : List Char) : Bool :=
  if startsWithDigit l then
    match munchDigits l with
    | '.' :: r2 =>
        if startsWithDigit r2 then expPart (munchDigits r2) else expPart r2
    | r2 => expPart r2
  else
    match l with
    | '.' :: r2 => startsWithDigit r2 && expPart (munchDigits r2)
    | _ => false

/-- Python `float(s)` succeeds, for an ASCII string: strip surrounding
whitespace, optional sign, then `inf`, `infinity`, `nan` (case-insensitive)
or a numeric literal. On non-ASCII strings Python can also succeed via
Unicode decimal digits; see `asciiOnly`. -/
def floatAccepts (s : String) : Bool :=
  let l := (trimChars s.toList).map Char.toLower
  let body := match l with
    | '+' :: r => r
    | '-' :: r => r
    | r => r
  decide (body = "inf".toList) || decide (body = "infinity".toList) ||
    decide (body = "nan".toList) || mantissaExp body

/-- `ModernInputDialog.ok_clicked` (gui_executor.py:434-449,
human_loop_server.py:197-211): empty entry gives `None` for every input
type; for `integer`/`float` a failed parse also gives `None`; otherwise the
parsed/raw value. -/
def inputOkResult (input_type entry : String) : DVal :=
  if input_type = "integer" then
    if entry = "" then .none
    else
      match pyParseInt entry with
      | some i => .int i
      | Option.none => .none
  else if input_type = "float" then
    if entry = "" then .none
    else if floatAccepts entry then .floatLit entry else .none
  else
    if entry = "" then .none else .str entry

/-- How the human finishes an input dialog. -/
inductive InputAction where
  | clickOk (entry : String)
  | pressReturn (entry : String)
  | clickCancel
  | closeWindow
  | pressEscape

/-- The input dialog's `result` field when it closes: OK and Return run
`ok_clicked`; Cancel, the window-close protocol and Escape all run
`cancel_clicked`, which sets `result = None`
(gui_executor.py:409-411,451-454). -/
def inputDialogResult (input_type : String) : InputAction → DVal
  | .clickOk e => inputOkResult input_type e
  | .pressReturn e => inputOkResult input_type e
  | .clickCancel => .none
  | .closeWindow => .none
  | .pressEscape => .none

/-- How the human finishes a confirmation dialog. -/
inductive ConfirmAction where
  | clickYes
  | clickNo
  | pressReturn
  | closeWindow
  | pressEscape

/-- `ModernConfirmationDialog`: Yes and Return run `yes_clicked`
(result `True`); No, the window-close protocol and Escape run `no_clicked`
(result `False`) (gui_executor.py:525-527,549-557;
human_loop_server.py:263-285). -/
def confirmationDialogResult : ConfirmAction → Bool
  | .clickYes => true
  | .pressReturn => true
  | .clickNo => false
  | .closeWindow => false
  | .pressEscape => false

/-- `listbox.curselection()`: the set of selected indices, reported in
increasing index order — the presentation order — regardless of the order
in which the human selected them. `sel` is the selection in click order. -/
def curselection (nChoices : Nat) (sel : List Nat) : List Nat :=
  (List.range nChoices).filter (fun i => sel.contains i)

/-- `ModernChoiceDialog.ok_clicked` (gui_executor.py:780-786,
human_loop_server.py:428-433): map the selected indices to their items; a
multi-item selection yields the list, a single item yields the bare string,
an empty selection leaves `result = None`. -/
def choiceOkResult (choices : List String) (sel : List Nat) : DVal :=
  match curselection choices.length sel with
  | [] => .none
  | [i] => .str (choices.getD i "")
  | l => .strList (l.map (fun i => choices.getD i ""))

/-- `ModernMultilineDialog.ok_clicked` (gui_executor.py:916-919): the text
widget content, stripped. Cancel/close/Escape give `None`. -/
def multilineOkResult (text : String) : DVal := .str text.trim

/-! ## Transport: `run_gui_subprocess` (human_loop_server.py:586-621)

The server spawns one fresh subprocess per request, writes the pickled
request to its stdin and calls `process.communicate(input=...)` with no
`timeout` argument, then inspects exit code, stderr and stdout.
-/

/-- What the spawned process put on stdout by the time it exited. -/
inductive StdoutContent where
  | pickled (v : DVal)
  | garbage
  | empty
deriving DecidableEq

/-- Observable behavior of one spawned subprocess: it terminates after some
wall-clock delay with an exit code, stdout and stderr, or it never
terminates. -/
inductive ProcBehavior where
  | terminatesAfter (secs : Nat) (rc : Int) (out : StdoutContent) (err : String)
  | neverTerminates
deriving DecidableEq

/-- Result of `process.communicate`: the process's outputs, a
`TimeoutExpired` exception, or blocking forever. -/
inductive CommResult where
  | done (rc : Int) (out : StdoutContent) (err : String)
  | timeoutExpired
  | blocked
deriving DecidableEq

/-- `process.communicate(input=...)` at human_loop_server.py:604 passes no
`timeout` argument. -/
def guiCommunicateTimeout : Option Nat := Option.none

/-- Semantics of `Popen.communicate` with an optional timeout: without a
timeout the call returns only when the process terminates, blocking forever
on a process that never does; with a timeout it raises `TimeoutExpired`
once the deadline passes. -/
def communicate (timeout : Option Nat) (p : ProcBehavior) : CommResult :=
  match p, timeout with
  | .terminatesAfter _ rc out err, Option.none => .done rc out err
  | .terminatesAfter t rc out err, some limit =>
      if t ≤ limit then .done rc out err else .timeoutExpired
  | .neverTerminates, some _ => .timeoutExpired
  | .neverTerminates, Option.none => .blocked

/-- The body of `run_gui_subprocess` after `communicate` returns
(human_loop_server.py:606-617), with the `raise` statements kept explicit
as `Except.error`:
nonzero exit with stderr raises `RuntimeError` (line 608); nonzero exit
with empty stderr returns `None` (line 609); on exit code 0 the stdout is
unpickled (raising on garbage, line 612) and a dict carrying an `error`
key raises `RuntimeError` (line 615); otherwise the value is returned. -/
def runGuiBody (rc : Int) (out : StdoutContent) (err : String) :
    Except String DVal :=
  if rc = 0 then
    match out with
    | .pickled v =>
        match v with
        | .errDict m => .error ("GUI error: " ++ m)
        | w => .ok w
    | _ => .error "unpickling stdout failed"
  else
    if err = "" then .ok .none
    else .error ("GUI subprocess error: " ++ err)

/-- A call that either completes with a value or blocks forever. -/
inductive CallResult (α : Type) where
  | completes (a : α)
  | hangs
deriving DecidableEq

/-- `run_gui_subprocess` (human_loop_server.py:586-621): spawn, communicate
without timeout, then the body; the enclosing `except Exception` (lines
619-621) catches every raise, prints it and returns `None`, so the caller
can never observe an exception — only a value, `None`, or no return at
all. -/
def run_gui_subprocess (p : ProcBehavior) : CallResult DVal :=
  match communicate guiCommunicateTimeout p with
  | .blocked => .hangs
  | .timeoutExpired => .completes .none
  | .done rc out err =>
      .completes
        (match runGuiBody rc out err with
        | .ok v => v
        | .error _ => .none)

/-- The executor subprocess `main` (gui_executor.py:926-984 and the
embedded script at human_loop_server.py:572-583): run the dialog; a dialog
that raises is converted to the error dict (gui_executor.py:979-980); the
result is pickled to stdout and the process exits normally (exit code 0). -/
inductive DialogOutcome where
  | returns (v : DVal)
  | raises (msg : String)
deriving DecidableEq

/-- Subprocess behavior produced by the executor script for a request that
reaches the dialog dispatch (stdin unpickled successfully and the imports
succeeded): exit code 0 with a pickled value on stdout. A failure before
the dispatch — unpickling stdin, importing tkinter — is outside the try
block and exits nonzero; those behaviors are covered by quantifying over
`ProcBehavior` directly. -/
def guiMain : DialogOutcome → ProcBehavior
  | .returns v => .terminatesAfter 0 0 (.pickled v) ""
  | .raises m => .terminatesAfter 0 0 (.pickled (.errDict m)) ""

/-! ## Tool handlers (human_loop_server.py:625-893)

Each MCP tool wraps its whole body in `try ... except Exception` and builds
one of three dict shapes: a success dict, a cancelled dict (when
`run_gui_subprocess` returned `None`), or an error dict (when something in
the try block raised). Outcome dicts are modeled as literal key/value
lists mirroring the source dict literals.
-/

/-- A Python dict returned by a tool handler. -/
abbrev Dict := List (String × DVal)

/-- The five tool kinds. -/
inductive ToolKind where
  | input
  | choice
  | multiline
  | confirmation
  | info
deriving DecidableEq

/-- Python truthiness of a result value, used by
`"yes" if result else "no"` (human_loop_server.py:838). Modeling cut: a
`floatLit` is treated as truthy, although Python's `bool(0.0)` is false —
deciding zero-ness of a float literal would need float arithmetic (the
literal `1e-1000` underflows to `0.0`). A float can reach this point only
from garbage stdout (the confirmation dialog produces booleans), and no
theorem below inspects that case. -/
def truthy : DVal → Bool
  | .none => false
  | .bool b => b
  | .int i => decide (i ≠ 0)
  | .floatLit _ => true
  | .str s => decide (s ≠ "")
  | .strList xs => decide (xs ≠ [])
  | .errDict _ => true

/-- `result if isinstance(result, list) else [result]`
(human_loop_server.py:722). The choice dialog produces strings or string
lists; for those this matches Python exactly. Modeling cut: on any other
scalar Python builds the one-element list holding that scalar, which the
string-list representation cannot carry — such a value reaches this point
only from garbage stdout, and no theorem below inspects that case. -/
def pyListWrap : DVal → DVal
  | .strList xs => .strList xs
  | .str s => .strList [s]
  | _ => .strList []

/-- Success dict of `get_user_input` (human_loop_server.py:658-664). -/
def inputSuccessDict (v : DVal) (it pf : String) : Dict :=
  [("success", .bool true), ("user_input", v), ("input_type", .str it),
    ("cancelled", .bool false), ("platform", .str pf)]

/-- Cancelled dict of `get_user_input` (human_loop_server.py:668-674). -/
def inputCancelledDict (it pf : String) : Dict :=
  [("success", .bool false), ("user_input", .none), ("input_type", .str it),
    ("cancelled", .bool true), ("platform", .str pf)]

/-- Success dict of `get_user_choice` (human_loop_server.py:719-726). -/
def choiceSuccessDict (v : DVal) (am : Bool) (pf : String) : Dict :=
  [("success", .bool true), ("selected_choice", v),
    ("selected_choices", pyListWrap v), ("allow_multiple", .bool am),
    ("cancelled", .bool false), ("platform", .str pf)]

/-- Cancelled dict of `get_user_choice` (human_loop_server.py:730-737). -/
def choiceCancelledDict (am : Bool) (pf : String) : Dict :=
  [("success", .bool false), ("selected_choice", .none),
    ("selected_choices", .strList []), ("allow_multiple", .bool am),
    ("cancelled", .bool true), ("platform", .str pf)]

/-- Success dict of `get_multiline_input` (human_loop_server.py:779-786). -/
def multilineSuccessDict (s : String) (pf : String) : Dict :=
  [("success", .bool true), ("user_input", .str s),
    ("character_count", .int s.length),
    ("line_count", .int (s.splitOn "\n").length),
    ("cancelled", .bool false), ("platform", .str pf)]

/-- Cancelled dict of `get_multiline_input` (human_loop_server.py:790-795). -/
def multilineCancelledDict (pf : String) : Dict :=
  [("success", .bool false), ("user_input", .none),
    ("cancelled", .bool true), ("platform", .str pf)]

/-- Return dict of `show_confirmation_dialog` (human_loop_server.py:835-840):
built unconditionally from the result, with no cancelled branch at all. -/
def confirmationDict (v : DVal) (pf : String) : Dict :=
  [("success", .bool true), ("confirmed", v),
    ("response", .str (if truthy v then "yes" else "no")),
    ("platform", .str pf)]

/-- Return dict of `show_info_message` (human_loop_server.py:880-884). -/
def infoDict (v : DVal) (pf : String) : Dict :=
  [("success", .bool true), ("acknowledged", v), ("platform", .str pf)]

/-- Error dict built in each tool's `except` clause
(human_loop_server.py:679-684, 742-747, 800-805, 845-850, 889-893). -/
def toolErrorDict (k : ToolKind) (pf e : String) : Dict :=
  match k with
  | .input => [("success", .bool false), ("error", .str e),
      ("cancelled", .bool false), ("platform", .str pf)]
  | .choice => [("success", .bool false), ("error", .str e),
      ("cancelled", .bool false), ("platform", .str pf)]
  | .multiline => [("success", .bool false), ("error", .str e),
      ("cancelled", .bool false), ("platform", .str pf)]
  | .confirmation => [("success", .bool false), ("error", .str e),
      ("confirmed", .bool false), ("platform", .str pf)]
  | .info => [("success", .bool false), ("error", .str e),
      ("platform", .str pf)]

/-- Per-kind processing of the `run_gui_subprocess` return value inside the
try block. `input`/`choice`/`multiline` branch on `result is not None`;
`confirmation`/`info` use the value unconditionally. The multiline success
path calls `len(result)` and `result.split` (human_loop_server.py:782-783),
which raise on a non-string value. -/
def toolFinish (k : ToolKind) (it : String) (am : Bool) (pf : String)
    (v : DVal) : Except String Dict :=
  match k with
  | .input =>
      .ok (match v with
        | .none => inputCancelledDict it pf
        | w => inputSuccessDict w it pf)
  | .choice =>
      .ok (match v with
        | .none => choiceCancelledDict am pf
        | w => choiceSuccessDict w am pf)
  | .multiline =>
      match v with
      | .none => .ok (multilineCancelledDict pf)
      | .str s => .ok (multilineSuccessDict s pf)
      | _ => .error "object has no attribute split"
  | .confirmation => .ok (confirmationDict v pf)
  | .info => .ok (infoDict v pf)

/-- The try block of a tool handler: `inj` injects an exception raised by
anything else inside the block (for example an awaited `ctx` logging call);
otherwise await the executor call and process its value. -/
def toolHandlerRaw (k : ToolKind) (it : String) (am : Bool) (pf : String)
    (inj : Option String) (p : ProcBehavior) :
    Except String (CallResult Dict) :=
  match inj with
  | some e => .error e
  | Option.none =>
      match run_gui_subprocess p with
      | .hangs => .ok .hangs
      | .completes v =>
          match toolFinish k it am pf v with
          | .ok d => .ok (.completes d)
          | .error e => .error e

/-- A tool handler: the try block with its `except Exception` clause, which
turns any raise into the error dict. This is the value returned to the MCP
caller. -/
def toolHandler (k : ToolKind) (it : String) (am : Bool) (pf : String)
    (inj : Option String) (p : ProcBehavior) : CallResult Dict :=
  match toolHandlerRaw k it am pf inj p with
  | .ok r => r
  | .error e => .completes (toolErrorDict k pf e)

/-- `get_user_input` (human_loop_server.py:625-684). -/
def get_user_input (it pf : String) (inj : Option String)
    (p : ProcBehavior) : CallResult Dict :=
  toolHandler .input it false pf inj p

/-- `get_user_choice` (human_loop_server.py:686-747). -/
def get_user_choice (am : Bool) (pf : String) (inj : Option String)
    (p : ProcBehavior) : CallResult Dict :=
  toolHandler .choice "" am pf inj p

/-- `get_multiline_input` (human_loop_server.py:749-805). -/
def get_multiline_input (pf : String) (inj : Option String)
    (p : ProcBehavior) : CallResult Dict :=
  toolHandler .multiline "" false pf inj p

/-- `show_confirmation_dialog` (human_loop_server.py:807-850). -/
def show_confirmation_dialog (pf : String) (inj : Option String)
    (p : ProcBehavior) : CallResult Dict :=
  toolHandler .confirmation "" false pf inj p

/-- `show_info_message` (human_loop_server.py:852-893). -/
def show_info_message (pf : String) (inj : Option String)
    (p : ProcBehavior) : CallResult Dict :=
  toolHandler .info "" false pf inj p

/-- The per-kind tool return value when `run_gui_subprocess` hands back
Python `None` (swallowed failure or user cancellation): input, choice and
multiline report cancellation; confirmation and info have no cancellation
branch and build their success-true dicts around the `None` value
(human_loop_server.py:835-840, 880-884). -/
def noneOutcomeDict (k : ToolKind) (it : String) (am : Bool)
    (pf : String) : Dict :=
  match k with
  | .input => inputCancelledDict it pf
  | .choice => choiceCancelledDict am pf
  | .multiline => multilineCancelledDict pf
  | .confirmation => confirmationDict .none pf
  | .info => infoDict .none pf

theorem toolHandler_completes (k : ToolKind) (it : String) (am : Bool)
    (pf : String) (p : ProcBehavior) (v : DVal)
    (h : run_gui_subprocess p = .completes v) :
    toolHandler k it am pf Option.none p =
      .completes
        (match toolFinish k it am pf v with
        | .ok d => d
        | .error e => toolErrorDict k pf e) := by
  simp only [toolHandler, toolHandlerRaw, h]
  cases toolFinish k it am pf v <;> rfl

theorem toolHandler_none (k : ToolKind) (it : String) (am : Bool)
    (pf : String) (p : ProcBehavior)
    (h : run_gui_subprocess p = .completes .none) :
    toolHandler k it am pf Option.none p =
      .completes (noneOutcomeDict k it am pf) := by
  rw [toolHandler_completes k it am pf p .none h]
  cases k <;> rfl

theorem run_gui_nonzero (t : Nat) (rc : Int) (out : StdoutContent)
    (err : String) (h : rc ≠ 0) :
    run_gui_subprocess (.terminatesAfter t rc out err) = .completes .none := by
  rcases eq_or_ne err "" with he | he <;>
    simp [run_gui_subprocess, communicate, guiCommunicateTimeout,
      runGuiBody, if_neg h, he]

/-! ## Argument validation at the tool boundary

Each tool's signature (human_loop_server.py:626-631, 687-692, 750-754,
808-811, 853-856) declares its parameters with `Annotated[..., Field(...)]`;
parameters without a default are required, and FastMCP/pydantic reject a
call missing one before the handler body runs, so no subprocess is spawned
for it.
-/

/-- Required (defaultless) arguments of each tool, read off the
signatures. `default_value`, `input_type`, `allow_multiple` and `ctx` have
defaults and are optional. -/
def requiredArgs : ToolKind → List String
  | .input => ["title", "prompt"]
  | .choice => ["title", "prompt", "choices"]
  | .multiline => ["title", "prompt"]
  | .confirmation => ["title", "message"]
  | .info => ["title", "message"]

/-- Every required argument of the tool appears among the provided
argument names. -/
def allProvided (k : ToolKind) (provided : List String) : Bool :=
  (requiredArgs k).all (fun a => provided.contains a)

/-- Keys of the `params` dict the handler body builds before spawning
(human_loop_server.py:644-649, 705-710, 766-770, 823-826, 868-871). -/
def builtParamsKeys : ToolKind → List String
  | .input => ["title", "prompt", "default_value", "input_type"]
  | .choice => ["title", "prompt", "choices", "allow_multiple"]
  | .multiline => ["title", "prompt", "default_value"]
  | .confirmation => ["title", "message"]
  | .info => ["title", "message"]

/-- Keys the executor subprocess reads unconditionally for each dialog kind
(gui_executor.py:939-977; the remaining keys are read with `.get` and a
default). -/
def executorReadsKeys : ToolKind → List String
  | .input => ["title", "prompt"]
  | .choice => ["title", "prompt", "choices"]
  | .multiline => ["title", "prompt"]
  | .confirmation => ["title", "message"]
  | .info => ["title", "message"]

/-- Outcome of submitting a tool call: rejected by argument validation, or
the handler ran and spawned its subprocess with the given params keys. -/
inductive DispatchResult where
  | validationError
  | spawned (paramsKeys : List String)
deriving DecidableEq

/-- The tool-call boundary: the framework validates the declared signature
first; only a call providing every required argument reaches the handler
body, which then builds its params dict and spawns the subprocess. -/
def dispatchTool (k : ToolKind) (provided : List String) : DispatchResult :=
  if allProvided k provided then .spawned (builtParamsKeys k)
  else .validationError

/-! ## The execution context of the tool calls

Every tool runs its blocking `run_gui_subprocess` call via
`await asyncio.get_event_loop().run_in_executor(None, run_gui_subprocess, ...)`
(human_loop_server.py:651-653 and the analogous lines of the other four
tools). The first argument `None` selects the event loop's default
`concurrent.futures.ThreadPoolExecutor`, whose worker count defaults to
`min(32, cpu_count + 4)`; the server takes no lock and keeps no queue of
its own, so the only serialization is the pool's: workers pick up submitted
tasks in FIFO order, and up to `max_workers` tasks run at once.
-/

/-- Default `max_workers` of `ThreadPoolExecutor` (and hence of the asyncio
default executor selected by `run_in_executor(None, ...)`). -/
def defaultMaxWorkers (cpu : Nat) : Nat := min 32 (cpu + 4)

/-- Status of one submitted dialog request. -/
inductive TStat where
  | pending
  | executing
  | done
deriving DecidableEq

/-- Number of requests currently executing. -/
def countExec (ts : List TStat) : Nat :=
  ts.countP (fun t => t == TStat.executing)

/-- One scheduling step of a `w`-worker thread pool over the submitted
tasks, in submission order: a free worker (fewer than `w` tasks running)
picks up the earliest pending task, or a running task finishes. -/
inductive PoolStep (w : Nat) : List TStat → List TStat → Prop where
  | start (ts : List TStat) (i : Nat) :
      ts[i]? = some .pending →
      (∀ j, j < i → ts[j]? ≠ some TStat.pending) →
      countExec ts < w →
      PoolStep w ts (ts.set i .executing)
  | finish (ts : List TStat) (i : Nat) :
      ts[i]? = some .executing →
      PoolStep w ts (ts.set i .done)

/-- Reachability under pool scheduling. -/
inductive PoolReach (w : Nat) : List TStat → List TStat → Prop where
  | refl (ts : List TStat) : PoolReach w ts ts
  | step (a b c : List TStat) :
      PoolReach w a b → PoolStep w b c → PoolReach w a c

/-- Tasks are picked up in submission order: wherever a task is still
pending, every later slot is also still pending. -/
def fifoPickup (ts : List TStat) : Prop :=
  ∀ i j, i ≤ j → j < ts.length → ts[i]? = some TStat.pending →
    ts[j]? = some TStat.pending

theorem getElem?_some_lt {α : Type} (ts : List α) (i : Nat) (v : α)
    (h : ts[i]? = some v) : i < ts.length := by
  induction ts generalizing i with
  | nil => simp at h
  | cons a l ih =>
      cases i with
      | zero => simp
      | succ n =>
          simp only [List.getElem?_cons_succ] at h
          simpa using Nat.succ_lt_succ (ih n h)

theorem set_getElem?_eq {α : Type} (ts : List α) (i : Nat) (v : α)
    (h : i < ts.length) : (ts.set i v)[i]? = some v := by
  induction ts generalizing i with
  | nil => simp at h
  | cons a l ih =>
      cases i with
      | zero => simp
      | succ n =>
          simp only [List.set_cons_succ, List.getElem?_cons_succ]
          exact ih n (by simpa using Nat.lt_of_succ_lt_succ h)

theorem set_getElem?_ne {α : Type} (ts : List α) (i j : Nat) (v : α)
    (h : i ≠ j) : (ts.set i v)[j]? = ts[j]? := by
  induction ts generalizing i j with
  | nil => simp
  | cons a l ih =>
      cases i with
      | zero =>
          cases j with
          | zero => exact absurd rfl h
          | succ m => simp
      | succ n =>
          cases j with
          | zero => simp
          | succ m =>
              simp only [List.set_cons_succ, List.getElem?_cons_succ]
              exact ih n m (fun hh => h (by rw [hh]))

theorem countExec_set_executing (ts : List TStat) (i : Nat)
    (h : ts[i]? = some TStat.pending) :
    countExec (ts.set i .executing) = countExec ts + 1 := by
  induction ts generalizing i with
  | nil => simp at h
  | cons a l ih =>
      cases i with
      | zero =>
          simp only [List.getElem?_cons_zero, Option.some.injEq] at h
          subst h
          simp [countExec, List.countP_cons]
      | succ n =>
          simp only [List.getElem?_cons_succ] at h
          have hl := ih n h
          simp only [List.set_cons_succ, countExec, List.countP_cons] at hl ⊢
          omega

theorem countExec_set_done (ts : List TStat) (i : Nat)
    (h : ts[i]? = some TStat.executing) :
    countExec (ts.set i .done) + 1 = countExec ts := by
  induction ts generalizing i with
  | nil => simp at h
  | cons a l ih =>
      cases i with
      | zero =>
          simp only [List.getElem?_cons_zero, Option.some.injEq] at h
          subst h
          simp [countExec, List.countP_cons]
      | succ n =>
          simp only [List.getElem?_cons_succ] at h
          have hl := ih n h
          simp only [List.set_cons_succ, countExec, List.countP_cons] at hl ⊢
          omega

/-- The pool invariant: never more than `w` tasks executing, and pickup in
submission order. -/
def PoolInv (w : Nat) (ts : List TStat) : Prop :=
  countExec ts ≤ w ∧ fifoPickup ts

theorem poolInv_step {w : Nat} {a b : List TStat} (hinv : PoolInv w a)
    (hstep : PoolStep w a b) : PoolInv w b := by
  obtain ⟨hcount, hfifo⟩ := hinv
  cases hstep with
  | start i hp hfirst hlt =>
      constructor
      · rw [countExec_set_executing a i hp]
        omega
      · intro x y hxy hylen hx
        have hxi : x ≠ i := by
          intro hcontra
          subst hcontra
          rw [set_getElem?_eq a x TStat.executing
            (getElem?_some_lt a x TStat.pending hp)] at hx
          exact absurd hx (by simp)
        rw [set_getElem?_ne a i x TStat.executing (fun hh => hxi hh.symm)] at hx
        have hyi : y ≠ i := by
          intro hcontra
          subst hcontra
          exact hfirst x (Nat.lt_of_le_of_ne hxy hxi) hx
        rw [set_getElem?_ne a i y TStat.executing (fun hh => hyi hh.symm)]
        exact hfifo x y hxy (by simpa using hylen) hx
  | finish i hp =>
      constructor
      · have := countExec_set_done a i hp
        omega
      · intro x y hxy hylen hx
        have hxi : x ≠ i := by
          intro hcontra
          subst hcontra
          rw [set_getElem?_eq a x TStat.done
            (getElem?_some_lt a x TStat.executing hp)] at hx
          exact absurd hx (by simp)
        rw [set_getElem?_ne a i x TStat.done (fun hh => hxi hh.symm)] at hx
        have hy := hfifo x y hxy (by simpa using hylen) hx
        have hyi : y ≠ i := by
          intro hcontra
          subst hcontra
          rw [hp] at hy
          exact absurd hy (by simp)
        rw [set_getElem?_ne a i y TStat.done (fun hh => hyi hh.symm)]
        exact hy

theorem poolInv_reach {w : Nat} {a b : List TStat} (hinv : PoolInv w a)
    (hreach : PoolReach w a b) : PoolInv w b := by
  induction hreach with
  | refl => exact hinv
  | step y z _ hstep ih => exact poolInv_step ih hstep

theorem countExec_replicate_pending (n : Nat) :
    countExec (List.replicate n TStat.pending) = 0 := by
  induction n with
  | zero => rfl
  | succ m ih =>
      simp only [List.replicate_succ, countExec, List.countP_cons] at ih ⊢
      simp [ih]

theorem poolInv_init (w n : Nat) :
    PoolInv w (List.replicate n TStat.pending) := by
  constructor
  · rw [countExec_replicate_pending]
    exact Nat.zero_le w
  · intro x y hxy hylen hx
    have hy : y < n := by simpa using hylen
    simp [List.getElem?_replicate, hy]

/-! ## Claims -/

/-- Claim C1, as stated: with requests dispatched through
`run_in_executor(None, ...)`, at most one request is executing at any
instant. Refuted: the default executor is a thread pool with
`min(32, cpu_count + 4) ≥ 5` workers and the server takes no lock, so two
submitted requests can both be executing at once. -/
theorem c1_single_flight_cex :
    ¬ (∀ s, PoolReach (defaultMaxWorkers 1)
        [TStat.pending, TStat.pending] s → countExec s ≤ 1) := by
  intro h
  have hr1 : PoolStep (defaultMaxWorkers 1) [TStat.pending, TStat.pending]
      [TStat.executing, TStat.pending] :=
    PoolStep.start _ 0 (by decide)
      (fun j hj => absurd hj (Nat.not_lt_zero j)) (by decide)
  have hr2 : PoolStep (defaultMaxWorkers 1)
      [TStat.executing, TStat.pending]
      [TStat.executing, TStat.executing] :=
    PoolStep.start _ 1 (by decide)
      (fun j hj => by
        have hj0 : j = 0 := by omega
        subst hj0
        decide)
      (by decide)
  have hreach : PoolReach (defaultMaxWorkers 1)
      [TStat.pending, TStat.pending]
      [TStat.executing, TStat.executing] :=
    PoolReach.step _ _ _ (PoolReach.step _ _ _ (PoolReach.refl _) hr1) hr2
  have := h [TStat.executing, TStat.executing] hreach
  exact absurd this (by decide)

/-- Claim C1, amended: concurrently submitted requests may overlap — the
pool runs up to `min(32, cpu_count + 4)` of them at once — but tasks are
picked up in submission (FIFO) order: in every reachable schedule the
number of executing requests is bounded by the worker count, and wherever
a request is still pending every later-submitted request is also still
pending. -/
theorem c1_pool_bound_fifo (n cpu : Nat) (s : List TStat)
    (h : PoolReach (defaultMaxWorkers cpu)
      (List.replicate n TStat.pending) s) :
    countExec s ≤ defaultMaxWorkers cpu ∧ fifoPickup s :=
  poolInv_reach (poolInv_init _ n) h

theorem c1_pool_bound_fifo_witness :
    PoolReach (defaultMaxWorkers 1) (List.replicate 2 TStat.pending)
        [TStat.executing, TStat.pending] ∧
      (countExec [TStat.executing, TStat.pending] ≤ defaultMaxWorkers 1 ∧
        fifoPickup [TStat.executing, TStat.pending]) := by
  have hr : PoolReach (defaultMaxWorkers 1)
      (List.replicate 2 TStat.pending)
      [TStat.executing, TStat.pending] :=
    PoolReach.step _ _ _ (PoolReach.refl _)
      (PoolStep.start _ 0 (by decide)
        (fun j hj => absurd hj (Nat.not_lt_zero j)) (by decide))
  exact ⟨hr, c1_pool_bound_fifo 2 1 _ hr⟩

/-- Claim C2, as stated: a dialog that raises inside the subprocess yields
a tool return value with the error field populated and cancelled false.
Refuted: the subprocess pickles the error dict and exits 0; the server
raises `RuntimeError` on seeing it (line 615) but its own
`except Exception` (lines 619-621) swallows the raise and returns `None`,
so the tool reports plain cancellation with no error field. -/
theorem c2_raise_error_cex :
    get_user_input "text" "darwin" Option.none (guiMain (.raises "boom")) =
        .completes (inputCancelledDict "text" "darwin") ∧
      (inputCancelledDict "text" "darwin").lookup "error" = Option.none ∧
      (inputCancelledDict "text" "darwin").lookup "cancelled" =
        some (.bool true) := by
  decide

/-- Claim C2, amended: for every tool kind, a dialog that raises inside
the subprocess is delivered to the caller as if the dialog had produced no
value — input, choice and multiline report cancellation (success false,
cancelled true); confirmation and info report success true with a `None`
confirmed/acknowledged value — and in no case is an error field populated.
The dispatcher itself survives: each request spawns a fresh subprocess, so
the next request is unaffected. -/
theorem c2_raise_swallowed (k : ToolKind) (msg it pf : String) (am : Bool) :
    toolHandler k it am pf Option.none (guiMain (.raises msg)) =
        .completes (noneOutcomeDict k it am pf) ∧
      (noneOutcomeDict k it am pf).lookup "error" = Option.none := by
  have h : run_gui_subprocess (guiMain (.raises msg)) = .completes .none :=
    rfl
  exact ⟨toolHandler_none k it am pf _ h, by cases k <;> rfl⟩

/-- Claim C3, as stated: `pickle.loads(pickle.dumps(e)) == e` for every
representable envelope, floats included. Refuted by a NaN float result
(reachable via an input dialog of type float and the entry `nan`): the
decoded value is bit-identical but Python `==` on NaN is false. -/
theorem c3_pickle_pyeq_cex :
    (envRoundtrip (.res (.float 9221120237041090560))).map
        (fun d => pyEqEnv d (.res (.float 9221120237041090560))) =
      some false := by
  decide

/-- Claim C3, amended: for every representable envelope — empty strings,
empty choice lists, `None`, string lists, integers, floats (NaN bit
patterns included) and the structured-error variant — decoding the
serialized envelope gives back a structurally identical value; and the
round-tripped value is Python-`==`-equal to the original exactly when the
envelope contains no NaN float. -/
theorem c3_roundtrip (e : Envelope) :
    envRoundtrip e = some e ∧ pyEqEnv e e = noNanEnv e := by
  constructor
  · cases e with
    | req r => simp [envRoundtrip, decRequest_encode r]
    | res v => simp [envRoundtrip, decResult_encode v]
  · cases e with
    | req r => simp [pyEqEnv, noNanEnv]
    | res v =>
        cases v with
        | float bits => simp [pyEqEnv, pyEqResult, pyFloatEq, noNanEnv]
        | none => rfl
        | bool b => simp [pyEqEnv, pyEqResult, noNanEnv]
        | int i => simp [pyEqEnv, pyEqResult, noNanEnv]
        | str s => simp [pyEqEnv, pyEqResult, noNanEnv]
        | strList xs => simp [pyEqEnv, pyEqResult, noNanEnv]
        | errDict m => simp [pyEqEnv, pyEqResult, noNanEnv]

/-- Claim C4, as stated: dismissing a confirmation prompt (window close or
Escape) yields a cancelled-kind result distinct from an explicit no.
Refuted: both the window-close protocol and Escape are bound to
`no_clicked`, so dismissal produces exactly the same return value as
answering No — success true, confirmed false, and no cancelled field at
all. -/
theorem c4_dismiss_cancelled_cex :
    show_confirmation_dialog "darwin" Option.none
        (guiMain (.returns (.bool (confirmationDialogResult .closeWindow)))) =
      show_confirmation_dialog "darwin" Option.none
        (guiMain (.returns (.bool (confirmationDialogResult .clickNo)))) ∧
    show_confirmation_dialog "darwin" Option.none
        (guiMain (.returns (.bool (confirmationDialogResult .closeWindow)))) =
      .completes (confirmationDict (.bool false) "darwin") ∧
    (confirmationDict (.bool false) "darwin").lookup "cancelled" =
      Option.none := by
  decide

/-- Claim C4, amended: dismissing the confirmation prompt (window close or
Escape) yields the same outcome as explicitly answering No — success true,
confirmed false, response no — and the confirmation tool's return value
has no cancelled field at all. -/
theorem c4_dismiss_equals_no (pf : String) :
    show_confirmation_dialog pf Option.none
        (guiMain (.returns (.bool (confirmationDialogResult .closeWindow)))) =
        .completes (confirmationDict (.bool false) pf) ∧
      show_confirmation_dialog pf Option.none
          (guiMain (.returns (.bool (confirmationDialogResult .pressEscape)))) =
        .completes (confirmationDict (.bool false) pf) ∧
      show_confirmation_dialog pf Option.none
          (guiMain (.returns (.bool (confirmationDialogResult .clickNo)))) =
        .completes (confirmationDict (.bool false) pf) ∧
      (confirmationDict (.bool false) pf).lookup "cancelled" =
        Option.none ∧
      (confirmationDict (.bool false) pf).lookup "response" =
        some (.str "no") :=
  ⟨rfl, rfl, rfl, rfl, rfl⟩

/-- Claim C5, as stated: a subprocess exiting nonzero yields an error-kind
result carrying the stderr text. Refuted: `run_gui_subprocess` raises
`RuntimeError` with the stderr text (line 608) but its own
`except Exception` swallows it and returns `None`, which the tool reports
as a user cancellation with no error field. -/
theorem c5_nonzero_exit_error_cex :
    get_user_input "text" "darwin" Option.none
        (.terminatesAfter 0 1 .empty "boom") =
        .completes (inputCancelledDict "text" "darwin") ∧
      (inputCancelledDict "text" "darwin").lookup "error" = Option.none ∧
      (inputCancelledDict "text" "darwin").lookup "cancelled" =
        some (.bool true) := by
  decide

/-- Claim C5, amended: for every tool kind, a subprocess exit with a
nonzero code is delivered to the caller as if the dialog had produced no
value — input, choice and multiline report cancellation (success false,
cancelled true); confirmation and info report success true around a `None`
value — with no error field in any case; the stderr text is only printed
to the server log, never delivered. -/
theorem c5_nonzero_exit_swallowed (k : ToolKind) (t : Nat) (rc : Int)
    (out : StdoutContent) (err it pf : String) (am : Bool) (h : rc ≠ 0) :
    toolHandler k it am pf Option.none (.terminatesAfter t rc out err) =
        .completes (noneOutcomeDict k it am pf) ∧
      (noneOutcomeDict k it am pf).lookup "error" = Option.none :=
  ⟨toolHandler_none k it am pf _ (run_gui_nonzero t rc out err h),
    by cases k <;> rfl⟩

theorem c5_nonzero_exit_swallowed_witness :
    (1 : Int) ≠ 0 ∧
      (toolHandler .confirmation "" false "darwin" Option.none
          (.terminatesAfter 0 1 .garbage "tkinter missing") =
          .completes (noneOutcomeDict .confirmation "" false "darwin") ∧
        (noneOutcomeDict .confirmation "" false "darwin").lookup "error" =
          Option.none) :=
  ⟨by decide, c5_nonzero_exit_swallowed .confirmation 0 1 .garbage
    "tkinter missing" "" "darwin" false (by decide)⟩

/-- Claim C6, as stated: a finite default timeout is enforced by the caller
side of the transport, and a subprocess that never terminates eventually
yields a timeout-kind error. Refuted: `process.communicate` is called with
no timeout argument, so on a never-terminating subprocess the call blocks
forever and no outcome of any kind is delivered. -/
theorem c6_timeout_cex :
    (¬ ∃ limit, guiCommunicateTimeout = some limit) ∧
      get_user_input "text" "darwin" Option.none .neverTerminates =
        .hangs := by
  constructor
  · rintro ⟨l, hl⟩
    simp [guiCommunicateTimeout] at hl
  · rfl

/-- Claim C6, amended: no timeout is enforced anywhere on the caller side:
`communicate` is invoked without a timeout, and a subprocess that never
terminates blocks the awaiting tool call indefinitely — no timeout-kind
error (nor any other outcome) is ever delivered for it, for every tool
kind. -/
theorem c6_no_timeout_hang (k : ToolKind) (it : String) (am : Bool)
    (pf : String) :
    toolHandler k it am pf Option.none .neverTerminates = .hangs ∧
      guiCommunicateTimeout = Option.none :=
  ⟨rfl, rfl⟩

/-- Claim C7, confirmed: a tool call missing a required argument of its
kind (a choice request without choices, any request without a title) is
rejected by signature validation before the handler body runs, so no
subprocess is spawned for it; moreover every params key the executor
subprocess reads unconditionally is among the keys the handler builds, so
a validated request never fails on a missing key inside the execution
context. -/
theorem c7_validation_rejects (k : ToolKind) (provided : List String)
    (h : allProvided k provided = false) :
    dispatchTool k provided = .validationError ∧
      (executorReadsKeys k).all
        (fun a => (builtParamsKeys k).contains a) = true := by
  constructor
  · simp [dispatchTool, h]
  · cases k <;> decide

theorem c7_validation_rejects_witness :
    allProvided .choice ["title", "prompt"] = false ∧
      (dispatchTool .choice ["title", "prompt"] = .validationError ∧
        (executorReadsKeys .choice).all
          (fun a => (builtParamsKeys .choice).contains a) = true) :=
  ⟨by decide, c7_validation_rejects .choice ["title", "prompt"] (by decide)⟩

/-- Claim C8, confirmed: for the choice dialog over A, B, C with multiple
selection allowed, selecting A and C — in either click order — produces the
list with A before C (presentation order), and the tool delivers exactly
that list as the selected choices. -/
theorem c8_choice_presentation_order :
    choiceOkResult ["A", "B", "C"] [2, 0] = .strList ["A", "C"] ∧
      choiceOkResult ["A", "B", "C"] [0, 2] = .strList ["A", "C"] ∧
      get_user_choice true "darwin" Option.none
          (guiMain (.returns (choiceOkResult ["A", "B", "C"] [2, 0]))) =
        .completes (choiceSuccessDict (.strList ["A", "C"]) true "darwin") ∧
      (choiceSuccessDict (.strList ["A", "C"]) true "darwin").lookup
          "selected_choices" = some (.strList ["A", "C"]) := by
  decide

/-- The tool's return dict is one of the structured shapes: a success
field is present, and a failed call carries an error field or reports
cancellation. -/
def isStructuredDict (d : Dict) : Bool :=
  match d.lookup "success" with
  | some (.bool true) => (d.lookup "platform").isSome
  | some (.bool false) =>
      (d.lookup "platform").isSome &&
        ((d.lookup "error").isSome ||
          d.lookup "cancelled" == some (DVal.bool true))
  | _ => false

/-- A call either blocks (no outcome at all) or completes with a
structured dict. -/
def structuredCall : CallResult Dict → Bool
  | .completes d => isStructuredDict d
  | .hangs => true

theorem toolFinish_structured (k : ToolKind) (it : String) (am : Bool)
    (pf : String) (v : DVal) :
    isStructuredDict
        (match toolFinish k it am pf v with
        | .ok d => d
        | .error e => toolErrorDict k pf e) = true := by
  cases k <;> cases v <;> rfl

/-- Claim C9, confirmed: for every tool kind, every injected in-body
exception, and every subprocess behavior, the handler never lets an
exception escape: it either blocks forever awaiting a subprocess that
never terminates (no timeout exists), or returns one of the structured
outcome dicts — so no single request's failure can terminate the server. -/
theorem c9_handlers_structured (k : ToolKind) (it : String) (am : Bool)
    (pf : String) (inj : Option String) (p : ProcBehavior) :
    structuredCall (toolHandler k it am pf inj p) = true := by
  cases inj with
  | some e =>
      have hh : toolHandler k it am pf (some e) p =
          .completes (toolErrorDict k pf e) := rfl
      rw [hh]
      cases k <;> rfl
  | none =>
      cases p with
      | neverTerminates => rfl
      | terminatesAfter t rc out err =>
          have hrun : run_gui_subprocess (.terminatesAfter t rc out err) =
              .completes
                (match runGuiBody rc out err with
                | .ok v => v
                | .error _ => .none) := rfl
          rw [toolHandler_completes k it am pf _ _ hrun]
          exact toolFinish_structured k it am pf _

/-- Claim C10, confirmed: clicking OK on an input dialog with an empty
entry, or with input type integer/float and an entry that does not parse
as that number type, leaves the dialog result `None`, and the tool reports
success false and cancelled true — exactly the outcome produced by
pressing Cancel. The parse-failure hypotheses are stated over ASCII
entries, on which `pyParseInt`/`floatAccepts` agree with Python's
`int()`/`float()`; Python additionally parses non-ASCII Unicode decimal
digits, which the model does not cover. -/
theorem c10_unparsed_input_cancelled (it entry pf : String)
    (h : entry = "" ∨ (asciiOnly entry = true ∧
      ((it = "integer" ∧ pyParseInt entry = Option.none) ∨
        (it = "float" ∧ floatAccepts entry = false)))) :
    inputOkResult it entry = .none ∧
      get_user_input it pf Option.none
          (guiMain (.returns (inputOkResult it entry))) =
        .completes (inputCancelledDict it pf) ∧
      get_user_input it pf Option.none
          (guiMain (.returns (inputDialogResult it .clickCancel))) =
        .completes (inputCancelledDict it pf) := by
  have hres : inputOkResult it entry = .none := by
    rcases h with he | ⟨-, ⟨hit, hp⟩ | ⟨hit, hf⟩⟩
    · subst he
      unfold inputOkResult
      by_cases h1 : it = "integer"
      · rw [if_pos h1, if_pos rfl]
      · rw [if_neg h1]
        by_cases h2 : it = "float"
        · rw [if_pos h2, if_pos rfl]
        · rw [if_neg h2, if_pos rfl]
    · subst hit
      unfold inputOkResult
      rw [if_pos rfl]
      by_cases hentry : entry = ""
      · rw [if_pos hentry]
      · rw [if_neg hentry, hp]
    · subst hit
      unfold inputOkResult
      rw [if_neg (by decide), if_pos rfl]
      by_cases hentry : entry = ""
      · rw [if_pos hentry]
      · simp [if_neg hentry, hf]
  refine ⟨hres, ?_, rfl⟩
  rw [hres]
  rfl

theorem c10_unparsed_input_cancelled_witness :
    ("abc" = "" ∨ (asciiOnly "abc" = true ∧
        (("integer" = "integer" ∧ pyParseInt "abc" = Option.none) ∨
          ("integer" = "float" ∧ floatAccepts "abc" = false)))) ∧
      (inputOkResult "integer" "abc" = .none ∧
        get_user_input "integer" "darwin" Option.none
            (guiMain (.returns (inputOkResult "integer" "abc"))) =
          .completes (inputCancelledDict "integer" "darwin") ∧
        get_user_input "integer" "darwin" Option.none
            (guiMain (.returns (inputDialogResult "integer" .clickCancel))) =
          .completes (inputCancelledDict "integer" "darwin")) :=
  ⟨Or.inr ⟨by decide, Or.inl ⟨rfl, by decide⟩⟩,
    c10_unparsed_input_cancelled "integer" "abc" "darwin"
      (Or.inr ⟨by decide, Or.inl ⟨rfl, by decide⟩⟩)⟩

end HLoop
